import Mathlib

/-!
# MediaGuard — verification of the AI analysis engine

Shallow embedding of `src/modules/ai_analysis.py` (class `AIAnalysisEngine`)
and the image-conversion helper of `src/modules/utils.py`.

Python floats are modelled as `ℚ`; Python `round` (banker's rounding,
round-half-to-even) is `rhe`; JSON values are the inductive `Json`;
Python truthiness is `pyTruthy`; Python `float(x)` coercion is `pyFloat`
(for strings, plain decimal literals — the only string forms relevant here).
The remote HTTP calls are modelled by an `HttpResult` environment value:
the outcome of the single POST each client issues.
-/

namespace MediaGuard

/-- JSON values, as produced by `resp.json()`. -/
inductive Json where
  | null : Json
  | bool : Bool → Json
  | num : ℚ → Json
  | str : String → Json
  | arr : List Json → Json
  | obj : List (String × Json) → Json

/-- Python truthiness of a JSON value (`None`, `False`, `0`, `""`, `[]`, `{}`
are falsy). -/
def pyTruthy : Json → Bool
  | .null => false
  | .bool b => b
  | .num q => q ≠ 0
  | .str s => s ≠ ""
  | .arr l => !l.isEmpty
  | .obj l => !l.isEmpty

/-- `d.get(k)` on a Python dict parsed from JSON: the value under `k`,
or `None` (`Json.null`) when the key is absent. -/
def lookupJ (fields : List (String × Json)) (k : String) : Json :=
  match fields.find? (fun p => p.1 == k) with
  | some p => p.2
  | none => Json.null

/-- Python `a or b`. -/
def pyOr (a b : Json) : Json := if pyTruthy a then a else b

/-- Numeric value of a digit list (most significant first). -/
def digitsToNat (cs : List Char) : ℕ :=
  cs.foldl (fun acc c => 10 * acc + (c.toNat - '0'.toNat)) 0

/-- Python `float(s)` on a string, for plain decimal literals
`[+-]digits[.digits]` (the only string shapes the analysis can meet);
any other string raises `ValueError`, modelled as `none`. -/
def pyFloatStr (s : String) : Option ℚ :=
  let rec go (sgn : ℚ) (cs : List Char) : Option ℚ :=
    let ip := cs.takeWhile Char.isDigit
    let rest := cs.dropWhile Char.isDigit
    match rest with
    | [] => if ip.isEmpty then none else some (sgn * digitsToNat ip)
    | '.' :: t =>
      let fp := t.takeWhile Char.isDigit
      let rest2 := t.dropWhile Char.isDigit
      if !rest2.isEmpty then none
      else if ip.isEmpty && fp.isEmpty then none
      else some (sgn * ((digitsToNat ip : ℚ) + (digitsToNat fp : ℚ) / 10 ^ fp.length))
    | _ => none
  match s.data with
  | '-' :: t => go (-1) t
  | '+' :: t => go 1 t
  | cs => go 1 cs

/-- Python `float(x)` on a JSON value: numbers pass through, booleans map to
0/1, decimal strings parse; `None`, lists and objects raise
(`TypeError`/`ValueError`), modelled as `none`. -/
def pyFloat : Json → Option ℚ
  | .num q => some q
  | .bool b => some (if b then 1 else 0)
  | .str s => pyFloatStr s
  | _ => none

/-- Python `round(q)`: round half to even, as an integer. -/
def rhe (q : ℚ) : ℤ :=
  if q - ⌊q⌋ < 1/2 then ⌊q⌋
  else if (1 : ℚ)/2 < q - ⌊q⌋ then ⌊q⌋ + 1
  else if Even ⌊q⌋ then ⌊q⌋ else ⌊q⌋ + 1

/-- Python `round(q, 2)`. -/
def pyRound2 (q : ℚ) : ℚ := (rhe (q * 100) : ℚ) / 100

/-- Python `round(q, 3)`. -/
def pyRound3 (q : ℚ) : ℚ := (rhe (q * 1000) : ℚ) / 1000

/-- Outcome of one HTTP request as seen by the client:
either a `requests.RequestException`, or a response with a status code and a
body (`none` when `resp.json()` fails to parse). -/
inductive HttpResult where
  | exn : HttpResult
  | resp : ℕ → Option Json → HttpResult

/-! ## `utils.image_to_bytes` -/

/-- The image inputs `image_to_bytes` distinguishes.  A decoded bitmap is
carried together with its PNG re-encoding (the bytes `img.save(buf, "PNG")`
would produce); file-like objects are carried as the bytes `read()` yields
(a `str` result is UTF-8 encoded by the source). -/
inductive ImageInput where
  | none : ImageInput
  | bytes : List ℕ → ImageInput
  | filelike : List ℕ → ImageInput
  | pil : List ℕ → ImageInput
  | unsupported : ImageInput
  deriving DecidableEq, Repr

/-- `utils.image_to_bytes`: canonical byte payload, or the message of the
exception raised. -/
def image_to_bytes : ImageInput → Except String (List ℕ)
  | .none => .error "No image provided"
  | .bytes b => .ok b
  | .filelike b => .ok b
  | .pil b => .ok b
  | .unsupported => .error "Unsupported image type for conversion to bytes"

/-! ## Image analysis (`AIAnalysisEngine._analyze_image`) -/

/-- The fixed category map `parsed`, with exactly the four canonical keys
(initialised to 0.0 at line 213 of the source). -/
structure CatMap where
  violence : ℚ
  sexual : ℚ
  self_harm : ℚ
  hate : ℚ
  deriving DecidableEq, Repr

/-- The all-zero category map. -/
def zeroCats : CatMap := ⟨0, 0, 0, 0⟩

/-- `parsed[mapped] = v` for a canonical key. -/
def CatMap.set (m : CatMap) (k : String) (v : ℚ) : CatMap :=
  if k = "violence" then { m with violence := v }
  else if k = "sexual" then { m with sexual := v }
  else if k = "self_harm" then { m with self_harm := v }
  else if k = "hate" then { m with hate := v }
  else m

/-- `max(parsed.values())`: the dict keeps insertion order
violence, sexual, self_harm, hate. -/
def CatMap.maxVal (m : CatMap) : ℚ :=
  max (max (max m.violence m.sexual) m.self_harm) m.hate

/-- `AIAnalysisEngine.CATEGORY_MAP`: canonical output key for a normalized
Azure category token. -/
def CATEGORY_MAP (k : String) : Option String :=
  if k = "violence" then some "violence"
  else if k = "sexual" then some "sexual"
  else if k = "selfharm" then some "self_harm"
  else if k = "self_harm" then some "self_harm"
  else if k = "hate" then some "hate"
  else none

/-- `cat.replace(" ", "").lower()`: every space removed, every character
lowercased. -/
def normKey (cat : String) : String :=
  ⟨(cat.data.filter (fun c => c ≠ ' ')).map Char.toLower⟩

/-- `AIAnalysisEngine.MAX_SEVERITY`. -/
def MAX_SEVERITY : ℚ := 6

/-- The severity normalization of line 251-252: `round(sev / MAX_SEVERITY, 3)`. -/
def normSeverity (sev : ℚ) : ℚ := pyRound3 (sev / MAX_SEVERITY)

/-- Result of `_analyze_image`: either the uniform failure dict
(`classification="analysis_failed"`, `confidence=0`, `risk=None`, an error
message, all-zero categories) or the success dict
(`status="ok"`, `confidence=max_score`, parsed categories). -/
inductive ImageResult where
  | failed : String → CatMap → ImageResult
  | ok : ℚ → CatMap → ImageResult
  deriving DecidableEq, Repr

/-- The uniform schema-failure value returned by every parse rejection
(lines 233-263 of the source). -/
def invalidImage : ImageResult :=
  .failed "Invalid Azure Content Safety response" zeroCats

/-- The item loop of `_analyze_image` (lines 216-266): items that are not
dicts, lack a string category, or whose category is not in `CATEGORY_MAP`
are skipped; a recognized category with a non-float-convertible or
out-of-range severity rejects the whole response; otherwise the map is
updated and the valid flag set.  At the end, no valid category means
rejection, else success with `max(parsed.values())`. -/
def parseItems : List Json → CatMap → Bool → ImageResult
  | [], parsed, valid =>
      if valid then .ok parsed.maxVal parsed else invalidImage
  | item :: rest, parsed, valid =>
      match item with
      | .obj fields =>
        match lookupJ fields "category" with
        | .str cat =>
          match CATEGORY_MAP (normKey cat) with
          | some mapped =>
            match pyFloat (lookupJ fields "severity") with
            | some sev =>
              if 0 ≤ sev ∧ sev ≤ MAX_SEVERITY then
                parseItems rest (parsed.set mapped (normSeverity sev)) true
              else invalidImage
            | none => invalidImage
          | none => parseItems rest parsed valid
        | _ => parseItems rest parsed valid
      | _ => parseItems rest parsed valid

/-- Parsing of a 200 JSON body (lines 201-272).  `data.get` on a non-dict
top-level value raises an uncaught `AttributeError`, modelled as `.error`. -/
def analyzeImageData : Json → Except String ImageResult
  | .obj fields =>
      match pyOr (lookupJ fields "categoriesAnalysis")
                 (lookupJ fields "categories_analysis") with
      | .arr items => .ok (parseItems items zeroCats false)
      | _ => .ok invalidImage
  | _ => .error "AttributeError"

/-- `AIAnalysisEngine._analyze_image`, as a function of the conversion
outcome and of the HTTP environment (the response to the single POST). -/
def analyzeImage (conv : Except String (List ℕ)) (http : HttpResult) :
    Except String ImageResult :=
  match conv with
  | .error e => .ok (.failed ("Image conversion failed: " ++ e) zeroCats)
  | .ok _ =>
    match http with
    | .exn => .ok (.failed "Azure Content Safety request failed" zeroCats)
    | .resp status body =>
      if status ≠ 200 then
        .ok (.failed ("Azure Content Safety request failed: status=" ++
          toString status) zeroCats)
      else
        match body with
        | none =>
            .ok (.failed "Invalid Azure Content Safety response: not JSON"
              zeroCats)
        | some data => analyzeImageData data

/-! ## Text analysis (`AIAnalysisEngine._analyze_text`) -/

/-- Python `s.lower()`: every character lowercased. -/
def pyLower (s : String) : String := ⟨s.data.map Char.toLower⟩

/-- Python `s.strip()`: leading and trailing whitespace removed. -/
def pyStrip (s : String) : String :=
  ⟨((s.data.dropWhile Char.isWhitespace).reverse.dropWhile
    Char.isWhitespace).reverse⟩

/-- `AIAnalysisEngine.SENTIMENT_RISK_MAP`. -/
def SENTIMENT_RISK_MAP (s : String) : Option ℚ :=
  if s = "negative" then some (3/5)
  else if s = "mixed" then some (2/5)
  else if s = "neutral" then some 0
  else if s = "positive" then some 0
  else none

/-- Result of `_analyze_text`: either the failure dict
(`classification="analysis_failed"` plus an error message) or the success
dict (`status="ok"`, a sentiment string and its risk). -/
inductive TextResult where
  | failed : String → TextResult
  | ok : String → ℚ → TextResult
  deriving DecidableEq, Repr

/-- The uniform invalid-response failure of the text parser. -/
def invalidText : TextResult := .failed "Invalid Azure AI Language response"

/-- The scan of `tasks.items` (lines 336-346): the first dict item whose
`results` is a truthy dict holding a truthy non-empty `documents` list. -/
def findDocList : List Json → Option (List Json)
  | [] => none
  | it :: rest =>
    match it with
    | .obj f =>
      match lookupJ f "results" with
      | .obj rf =>
        if (Json.obj rf |> pyTruthy) then
          match lookupJ rf "documents" with
          | .arr ds => if !ds.isEmpty then some ds else findDocList rest
          | _ => findDocList rest
        else findDocList rest
      | _ => findDocList rest
    | _ => findDocList rest

/-- `(document.get("sentiment") or "").lower()` (line 353).  A non-dict
document, or a truthy non-string sentiment value, raises inside the
enclosing `try` (caught as the invalid-response failure), modelled as
`none`; a falsy value yields `""`. -/
def sentimentOf : Json → Option String
  | .obj f =>
      match lookupJ f "sentiment" with
      | .str s => some (pyLower s)
      | v => if pyTruthy v then none else some ""
  | _ => none

/-- Parsing of the 200 JSON job body (lines 323-363 of the source). -/
def analyzeTextData (data : Json) : TextResult :=
  match data with
  | .obj f =>
    match lookupJ f "tasks" with
    | .obj tf =>
      if !(Json.obj tf |> pyTruthy) then invalidText
      else
        match lookupJ tf "items" with
        | .arr its =>
          if its.isEmpty then invalidText
          else
            match findDocList its with
            | none => invalidText
            | some ds =>
              match ds with
              | [] => invalidText
              | document :: _ =>
                match sentimentOf document with
                | none => invalidText
                | some s =>
                  match SENTIMENT_RISK_MAP s with
                  | some r => .ok s r
                  | none => invalidText
        | _ => invalidText
    | _ => invalidText
  | _ => invalidText

/-- `AIAnalysisEngine._analyze_text`, as a function of the text and of the
HTTP environment (the response to the single POST to the jobs endpoint). -/
def analyzeText (text : String) (http : HttpResult) : TextResult :=
  if text = "" ∨ pyStrip text = "" then .failed "Empty text"
  else
    match http with
    | .exn => .failed "Azure AI Language request failed"
    | .resp status body =>
      if status ≠ 200 then
        .failed ("Azure AI Language request failed: status=" ++ toString status)
      else
        match body with
        | none => .failed "Invalid Azure AI Language response: not JSON"
        | some data => analyzeTextData data

/-- Number of HTTP requests `_analyze_text` issues for a given text: zero
when the empty-text guard fires, otherwise the single POST of line 299.
The source contains no poll loop and issues no further request. -/
def textHttpRequests (text : String) : ℕ :=
  if text = "" ∨ pyStrip text = "" then 0 else 1

/-! ## Fusion (`AIAnalysisEngine.analyze`) -/

/-- The final dict built by `analyze`: either the early-returned image
failure dict (classification `"analysis_failed"`), or the fused success
dict with classification, confidence, integer risk percent, the image
categories and the optional `text_analysis` entry (sentiment, risk).
The constant `provider` field is omitted. -/
inductive AnalyzeResult where
  | failedImage : String → CatMap → AnalyzeResult
  | ok : String → ℚ → ℤ → CatMap → Option (String × ℚ) → AnalyzeResult
  deriving DecidableEq, Repr

/-- The `classification` entry of the final dict. -/
def AnalyzeResult.classification : AnalyzeResult → String
  | .failedImage _ _ => "analysis_failed"
  | .ok cls _ _ _ _ => cls

/-- `AIAnalysisEngine._score_to_classification`. -/
def scoreToClassification (score : ℚ) : String :=
  if score ≤ 1/5 then "safe"
  else if score ≤ 3/5 then "sensitive"
  else "unsafe"

/-- The text block of `analyze` (lines 103-121): `if text:` guard
(`None` and `""` are falsy), then `_analyze_text`; a failure or malformed
result leaves `text_analysis = None` and `text_risk = 0.0`, a success
yields the `{sentiment, risk}` entry and its risk.  Returns
`(text_analysis, text_risk)`. -/
def textPart (text : Option String) (txtHttp : HttpResult) :
    Option (String × ℚ) × ℚ :=
  match text with
  | none => (none, 0)
  | some t =>
    if t = "" then (none, 0)
    else
      match analyzeText t txtHttp with
      | .failed _ => (none, 0)
      | .ok s r => (some (s, r), r)

/-- `AIAnalysisEngine.analyze`, as a function of the image-conversion
outcome, the image HTTP environment, the optional text argument and the
text HTTP environment.  `.error` marks an uncaught Python exception. -/
def analyze (conv : Except String (List ℕ)) (imgHttp : HttpResult)
    (text : Option String) (txtHttp : HttpResult) :
    Except String AnalyzeResult :=
  match analyzeImage conv imgHttp with
  | .error e => .error e
  | .ok (.failed err cats) => .ok (.failedImage err cats)
  | .ok (.ok imgConf cats) =>
    let tr := textPart text txtHttp
    let final_risk := max imgConf tr.2
    .ok (.ok (scoreToClassification final_risk) (pyRound2 (1 - final_risk))
      (rhe (final_risk * 100)) cats tr.1)

/-! ## Rounding lemmas -/

theorem rhe_ge_floor (q : ℚ) : ⌊q⌋ ≤ rhe q := by
  unfold rhe; split_ifs <;> omega

theorem rhe_le_floor_add_one (q : ℚ) : rhe q ≤ ⌊q⌋ + 1 := by
  unfold rhe; split_ifs <;> omega

/-- Round-half-to-even is weakly monotone. -/
theorem rhe_mono {a b : ℚ} (h : a ≤ b) : rhe a ≤ rhe b := by
  rcases lt_or_eq_of_le (Int.floor_le_floor h) with hf | hf
  · calc rhe a ≤ ⌊a⌋ + 1 := rhe_le_floor_add_one a
    _ ≤ ⌊b⌋ := by omega
    _ ≤ rhe b := rhe_ge_floor b
  · unfold rhe
    rw [← hf]
    split_ifs with h1 h2 h3 h4 h5 h6 h7 <;> try omega
    all_goals (exfalso; linarith)

theorem rhe_intCast (n : ℤ) : rhe (n : ℚ) = n := by
  unfold rhe
  rw [Int.floor_intCast]
  norm_num

theorem rhe_nonneg {q : ℚ} (h : 0 ≤ q) : 0 ≤ rhe q := by
  have := rhe_mono h
  rwa [show (0 : ℚ) = ((0 : ℤ) : ℚ) by norm_num, rhe_intCast] at this

theorem rhe_le_intCast {q : ℚ} {n : ℤ} (h : q ≤ (n : ℚ)) : rhe q ≤ n := by
  have := rhe_mono h
  rwa [rhe_intCast] at this

/-- `round(·, 2)` maps `[0,1]` into `[0,1]`. -/
theorem pyRound2_bounds {q : ℚ} (h0 : 0 ≤ q) (h1 : q ≤ 1) :
    0 ≤ pyRound2 q ∧ pyRound2 q ≤ 1 := by
  unfold pyRound2
  have hlo : 0 ≤ rhe (q * 100) := rhe_nonneg (by linarith)
  have hhi : rhe (q * 100) ≤ (100 : ℤ) := rhe_le_intCast (by push_cast; linarith)
  constructor
  · positivity
  · rw [div_le_one (by norm_num)]
    exact_mod_cast hhi

/-- `round(·, 3)` maps `[0,1]` into `[0,1]`. -/
theorem pyRound3_bounds {q : ℚ} (h0 : 0 ≤ q) (h1 : q ≤ 1) :
    0 ≤ pyRound3 q ∧ pyRound3 q ≤ 1 := by
  unfold pyRound3
  have hlo : 0 ≤ rhe (q * 1000) := rhe_nonneg (by linarith)
  have hhi : rhe (q * 1000) ≤ (1000 : ℤ) := rhe_le_intCast (by push_cast; linarith)
  constructor
  · positivity
  · rw [div_le_one (by norm_num)]
    exact_mod_cast hhi

theorem pyRound2_mono {a b : ℚ} (h : a ≤ b) : pyRound2 a ≤ pyRound2 b := by
  unfold pyRound2
  have := rhe_mono (show a * 100 ≤ b * 100 by linarith)
  have h' : ((rhe (a * 100) : ℚ)) ≤ (rhe (b * 100) : ℚ) := by exact_mod_cast this
  linarith

/-- `normSeverity` maps the declared range `[0, 6]` into `[0, 1]`. -/
theorem normSeverity_bounds {s : ℚ} (h0 : 0 ≤ s) (h6 : s ≤ MAX_SEVERITY) :
    0 ≤ normSeverity s ∧ normSeverity s ≤ 1 := by
  unfold normSeverity
  refine pyRound3_bounds (div_nonneg h0 (by norm_num [MAX_SEVERITY])) ?_
  rw [div_le_one (by norm_num [MAX_SEVERITY])]
  simpa [MAX_SEVERITY] using h6

/-! ## Structural lemmas about the parsers -/

/-- All four category risks lie in `[0, 1]`. -/
def CatMap.bounded (m : CatMap) : Prop :=
  0 ≤ m.violence ∧ m.violence ≤ 1 ∧ 0 ≤ m.sexual ∧ m.sexual ≤ 1 ∧
  0 ≤ m.self_harm ∧ m.self_harm ≤ 1 ∧ 0 ≤ m.hate ∧ m.hate ≤ 1

theorem CatMap.set_bounded {m : CatMap} {k : String} {v : ℚ}
    (hm : m.bounded) (h0 : 0 ≤ v) (h1 : v ≤ 1) : (m.set k v).bounded := by
  obtain ⟨a, b, c, d⟩ := m
  unfold CatMap.set CatMap.bounded at *
  split_ifs <;> simp_all

theorem CatMap.maxVal_bounds {m : CatMap} (hm : m.bounded) :
    0 ≤ m.maxVal ∧ m.maxVal ≤ 1 := by
  obtain ⟨a, b, c, d⟩ := m
  unfold CatMap.maxVal CatMap.bounded at *
  constructor
  · simp only [le_max_iff]
    tauto
  · simp only [max_le_iff]
    tauto

theorem zeroCats_bounded : zeroCats.bounded := by
  unfold zeroCats CatMap.bounded
  norm_num

theorem normSeverity_bounds01 {s : ℚ} (h : 0 ≤ s ∧ s ≤ MAX_SEVERITY) :
    0 ≤ normSeverity s ∧ normSeverity s ≤ 1 := normSeverity_bounds h.1 h.2

/-- A successful item loop yields a bounded category map whose maximum is
the reported score. -/
theorem parseItems_ok {items : List Json} {m : CatMap} {v : Bool} {r : ℚ}
    {c : CatMap} (hm : m.bounded) (h : parseItems items m v = .ok r c) :
    c.bounded ∧ r = c.maxVal := by
  induction items generalizing m v with
  | nil =>
    unfold parseItems at h
    split_ifs at h
    · cases h
      exact ⟨hm, rfl⟩
    · simp [invalidImage] at h
  | cons item rest ih =>
    unfold parseItems at h
    split at h
    · split at h
      · split at h
        · split at h
          · split at h
            · rename_i hr
              exact ih (CatMap.set_bounded hm (normSeverity_bounds01 hr).1
                (normSeverity_bounds01 hr).2) h
            · simp [invalidImage] at h
          · simp [invalidImage] at h
        · exact ih hm h
      · exact ih hm h
    · exact ih hm h

/-- An item that is a dict, whose category is a string recognized by
`CATEGORY_MAP`, and whose severity either fails `float()` conversion or
falls outside `[0, MAX_SEVERITY]`. -/
def badSeverityItem (j : Json) : Prop :=
  ∃ fields cat mapped, j = Json.obj fields ∧
    lookupJ fields "category" = Json.str cat ∧
    CATEGORY_MAP (normKey cat) = some mapped ∧
    ∀ sev, pyFloat (lookupJ fields "severity") = some sev →
      ¬(0 ≤ sev ∧ sev ≤ MAX_SEVERITY)

/-- A recognized item with an invalid severity anywhere in the list makes
the whole parse fail with the uniform invalid-response value (and hence
with the all-zero category map: no partial map survives). -/
theorem parseItems_bad {items : List Json} {m : CatMap} {v : Bool} {j : Json}
    (hj : j ∈ items) (hb : badSeverityItem j) :
    parseItems items m v = invalidImage := by
  induction items generalizing m v with
  | nil => cases hj
  | cons item rest ih =>
    rcases List.mem_cons.mp hj with rfl | hj'
    · obtain ⟨fields, cat, mapped, rfl, hcat, hmap, hsev⟩ := hb
      unfold parseItems
      simp only [hcat, hmap]
      rcases hpf : pyFloat (lookupJ fields "severity") with _ | sev
      · simp only [hpf]
      · simp only [hpf]
        rw [if_neg (hsev sev hpf)]
    · unfold parseItems
      split
      · split
        · split
          · split
            · split
              · exact ih hj'
              · rfl
            · rfl
          · exact ih hj'
        · exact ih hj'
      · exact ih hj'

/-- An item that is a dict whose category is a string recognized by
`CATEGORY_MAP` (the only kind of item that can contribute to the map). -/
def recognizedItem (j : Json) : Prop :=
  ∃ fields cat mapped, j = Json.obj fields ∧
    lookupJ fields "category" = Json.str cat ∧
    CATEGORY_MAP (normKey cat) = some mapped

/-- When no item is recognizable the loop ends with `valid_found` still
false and the parse fails with the uniform invalid-response value. -/
theorem parseItems_none_recognized {items : List Json} {m : CatMap}
    (hn : ∀ j ∈ items, ¬ recognizedItem j) :
    parseItems items m false = invalidImage := by
  induction items generalizing m with
  | nil =>
    unfold parseItems
    simp
  | cons item rest ih =>
    have hrest : ∀ j ∈ rest, ¬ recognizedItem j :=
      fun j hj => hn j (List.mem_cons_of_mem _ hj)
    unfold parseItems
    split
    · rename_i fields
      split
      · rename_i cat hcat
        split
        · rename_i mapped hmap
          exact absurd ⟨fields, cat, mapped, rfl, hcat, hmap⟩
            (hn _ (List.mem_cons_self _ _))
        · exact ih hrest
      · exact ih hrest
    · exact ih hrest

/-- Successful image analysis: the score equals the maximum category risk
and the map is bounded. -/
theorem analyzeImage_ok {conv : Except String (List ℕ)} {http : HttpResult}
    {c : ℚ} {m : CatMap} (h : analyzeImage conv http = .ok (.ok c m)) :
    m.bounded ∧ c = m.maxVal := by
  unfold analyzeImage at h
  split at h
  · simp at h
  · split at h
    · simp at h
    · split at h
      · simp at h
      · split at h
        · simp at h
        · rename_i data
          unfold analyzeImageData at h
          split at h
          · split at h
            · injection h with h'
              exact parseItems_ok zeroCats_bounded h'
            · simp [invalidImage] at h
          · simp at h

/-- A successful text parse carries a sentiment of the fixed map together
with exactly its mapped risk — never a partial or default value. -/
theorem analyzeTextData_ok {d : Json} {s : String} {r : ℚ}
    (h : analyzeTextData d = .ok s r) : SENTIMENT_RISK_MAP s = some r := by
  unfold analyzeTextData at h
  repeat' split at h
  all_goals simp_all [invalidText]

/-- A successful `_analyze_text` call carries a sentiment of the fixed map
together with exactly its mapped risk. -/
theorem analyzeText_ok {t : String} {http : HttpResult} {s : String} {r : ℚ}
    (h : analyzeText t http = .ok s r) : SENTIMENT_RISK_MAP s = some r := by
  unfold analyzeText at h
  split_ifs at h
  split at h
  · simp at h
  · split_ifs at h
    split at h
    · simp at h
    · exact analyzeTextData_ok h

theorem SENTIMENT_RISK_MAP_range {s : String} {r : ℚ}
    (h : SENTIMENT_RISK_MAP s = some r) : 0 ≤ r ∧ r ≤ 1 := by
  unfold SENTIMENT_RISK_MAP at h
  split_ifs at h <;> (cases h; norm_num)

/-- The text risk entering fusion is either 0 (no text, empty text, failed
analysis) or the mapped risk of a successfully analyzed sentiment. -/
theorem textPart_risk (text : Option String) (th : HttpResult) :
    (textPart text th).2 = 0 ∨
      ∃ s, SENTIMENT_RISK_MAP s = some (textPart text th).2 := by
  unfold textPart
  split
  · left; rfl
  · split_ifs
    · left; rfl
    · split
      · left; rfl
      · rename_i s r heq
        exact Or.inr ⟨s, analyzeText_ok heq⟩

theorem textPart_risk_bounds (text : Option String) (th : HttpResult) :
    0 ≤ (textPart text th).2 ∧ (textPart text th).2 ≤ 1 := by
  rcases textPart_risk text th with h | ⟨s, h⟩
  · rw [h]; norm_num
  · exact SENTIMENT_RISK_MAP_range h

/-- Inversion of a successful `analyze` call: the final dict is built from
one fused risk value in `[0, 1]` — classification, confidence and the
integer risk percent all derive from it. -/
theorem analyze_ok {conv : Except String (List ℕ)} {ih th : HttpResult}
    {t : Option String} {cls : String} {conf : ℚ} {riskv : ℤ} {cats : CatMap}
    {ta : Option (String × ℚ)}
    (h : analyze conv ih t th = .ok (.ok cls conf riskv cats ta)) :
    ∃ fr, 0 ≤ fr ∧ fr ≤ 1 ∧ cls = scoreToClassification fr ∧
      conf = pyRound2 (1 - fr) ∧ riskv = rhe (fr * 100) := by
  unfold analyze at h
  split at h
  · simp at h
  · simp at h
  · rename_i c m himg
    simp only [Except.ok.injEq, AnalyzeResult.ok.injEq] at h
    obtain ⟨hcls, hconf, hrisk, -, -⟩ := h
    obtain ⟨hmb, hcmax⟩ := analyzeImage_ok himg
    have hc := CatMap.maxVal_bounds hmb
    have htb := textPart_risk_bounds t th
    refine ⟨max c (textPart t th).2, ?_, ?_, hcls.symm, hconf.symm, hrisk.symm⟩
    · exact le_max_of_le_left (hcmax ▸ hc.1)
    · exact max_le (hcmax ▸ hc.2) htb.2

/-- `analyze` propagates an image failure verbatim as the final result,
before the text block can run. -/
theorem analyze_failedImage {conv : Except String (List ℕ)} {ih th : HttpResult}
    {t : Option String} {e : String} {m : CatMap}
    (h : analyzeImage conv ih = .ok (.failed e m)) :
    analyze conv ih t th = .ok (.failedImage e m) := by
  unfold analyze
  rw [h]

/-- When the image succeeded and the text analysis failed, `analyze`
degrades to the image-only risk. -/
theorem analyze_degraded {conv : Except String (List ℕ)} {ih th : HttpResult}
    {t : String} {c : ℚ} {m : CatMap} {e : String}
    (himg : analyzeImage conv ih = .ok (.ok c m)) (ht : t ≠ "")
    (htxt : analyzeText t th = .failed e) :
    analyze conv ih (some t) th = .ok (.ok (scoreToClassification c)
      (pyRound2 (1 - c)) (rhe (c * 100)) m none) := by
  have h0c : 0 ≤ c := by
    obtain ⟨hb, hmax⟩ := analyzeImage_ok himg
    rw [hmax]
    exact (CatMap.maxVal_bounds hb).1
  have htp : textPart (some t) th = (none, 0) := by
    simp only [textPart]
    rw [if_neg ht, htxt]
  unfold analyze
  rw [himg]
  simp [htp, max_eq_left h0c]

/-! ## Concrete provider payloads used as test vectors -/

/-- A language job body whose first document has sentiment `"negative"`. -/
def negJob : Json :=
  .obj [("tasks", .obj [("items", .arr [.obj [("results", .obj [("documents",
    .arr [.obj [("sentiment", .str "negative")]])])]])])]

/-- A language job body still in progress: status `"running"`, no task item
with a documents list yet. -/
def runJob : Json :=
  .obj [("status", .str "running"),
    ("tasks", .obj [("items", .arr [.obj [("status", .str "running")]])])]

/-- An image body with a single Violence item of severity 1. -/
def imgViolence1 : Json :=
  .obj [("categoriesAnalysis",
    .arr [.obj [("category", .str "Violence"), ("severity", .num 1)]])]

/-- An image body with a single Hate item of severity 0. -/
def imgHate0 : Json :=
  .obj [("categoriesAnalysis",
    .arr [.obj [("category", .str "Hate"), ("severity", .num 0)]])]

/-- An image body with a valid Violence item of severity 3 and a
`Weapons` item (not in `CATEGORY_MAP`) whose severity is the non-numeric
string `"high"`. -/
def imgMixed : Json :=
  .obj [("categoriesAnalysis",
    .arr [.obj [("category", .str "Violence"), ("severity", .num 3)],
          .obj [("category", .str "Weapons"), ("severity", .str "high")]])]

/-! ## Evaluations of the embedding on the test vectors -/

theorem eval_negJob :
    analyzeText "what a bad day" (.resp 200 (some negJob)) =
      .ok "negative" (3/5) := by
  rw [analyzeText, if_neg (by decide :
    ¬("what a bad day" = "" ∨ pyStrip "what a bad day" = ""))]
  simp [analyzeTextData, negJob, lookupJ, pyTruthy, findDocList, sentimentOf,
    SENTIMENT_RISK_MAP, pyLower]

theorem eval_runJob :
    analyzeText "hello" (.resp 200 (some runJob)) =
      .failed "Invalid Azure AI Language response" := by
  rw [analyzeText, if_neg (by decide : ¬("hello" = "" ∨ pyStrip "hello" = ""))]
  simp [analyzeTextData, runJob, lookupJ, pyTruthy, findDocList, sentimentOf,
    invalidText]

theorem eval_imgHate0 :
    analyzeImage (.ok [1]) (.resp 200 (some imgHate0)) =
      .ok (.ok 0 zeroCats) := by
  simp only [analyzeImage, imgHate0, analyzeImageData]
  norm_num
  simp [parseItems, lookupJ, pyOr, pyTruthy, normKey, CATEGORY_MAP, pyFloat,
    MAX_SEVERITY, normSeverity, pyRound3, CatMap.set, CatMap.maxVal, zeroCats,
    rhe]

theorem eval_imgViolence1 :
    analyzeImage (.ok [1]) (.resp 200 (some imgViolence1)) =
      .ok (.ok (167/1000) ⟨167/1000, 0, 0, 0⟩) := by
  simp only [analyzeImage, imgViolence1, analyzeImageData]
  norm_num
  simp [parseItems, lookupJ, pyOr, pyTruthy, normKey, CATEGORY_MAP, pyFloat,
    MAX_SEVERITY, normSeverity, pyRound3, CatMap.set, CatMap.maxVal, zeroCats,
    rhe]
  norm_num [Int.fract, sup_eq_left]

theorem eval_imgConvNone (ih : HttpResult) :
    analyzeImage (image_to_bytes ImageInput.none) ih =
      .ok (.failed "Image conversion failed: No image provided" zeroCats) :=
  rfl

theorem eval_imgExn :
    analyzeImage (.ok [1]) .exn =
      .ok (.failed "Azure Content Safety request failed" zeroCats) :=
  rfl

theorem eval_analyzeHate0 :
    analyze (.ok [1]) (.resp 200 (some imgHate0)) none .exn =
      .ok (.ok "safe" 1 0 zeroCats none) := by
  unfold analyze
  rw [eval_imgHate0]
  simp only [textPart]
  norm_num [scoreToClassification, pyRound2, rhe, Int.fract]

/-! ## The claims -/

/-- C1, counterexample.  When both an image and a text are supplied and the
image call fails with a network error, `analyze` returns the image failure
(classification `"analysis_failed"`) immediately: the text modality — which
analyzes successfully to sentiment `"negative"`, risk 0.6 under the same
environment — is never consulted and contributes nothing.  The claim that a
failing image modality never aborts sibling-text processing is false on the
code (line 97-98 of `ai_analysis.py` returns early). -/
theorem image_failure_aborts_text_cex :
    analyze (.ok [1]) .exn (some "what a bad day") (.resp 200 (some negJob)) =
      .ok (.failedImage "Azure Content Safety request failed" zeroCats) ∧
    analyzeText "what a bad day" (.resp 200 (some negJob)) =
      .ok "negative" (3/5) ∧
    (AnalyzeResult.failedImage "Azure Content Safety request failed"
      zeroCats).classification = "analysis_failed" :=
  ⟨analyze_failedImage eval_imgExn, eval_negJob, rfl⟩

/-- C1, amended.  The failure policy is asymmetric: an image-modality
failure is returned verbatim as the final result, aborting the call before
the text block runs; a text-modality failure, by contrast, is captured and
the image modality alone determines the fused risk. -/
theorem modality_failure_policy :
    (∀ (conv : Except String (List ℕ)) (ih th : HttpResult)
        (t : Option String) (e : String) (m : CatMap),
      analyzeImage conv ih = .ok (.failed e m) →
      analyze conv ih t th = .ok (.failedImage e m)) ∧
    (∀ (conv : Except String (List ℕ)) (ih th : HttpResult) (t : String)
        (c : ℚ) (m : CatMap) (e : String),
      analyzeImage conv ih = .ok (.ok c m) → t ≠ "" →
      analyzeText t th = .failed e →
      analyze conv ih (some t) th = .ok (.ok (scoreToClassification c)
        (pyRound2 (1 - c)) (rhe (c * 100)) m none)) :=
  ⟨fun _ _ _ _ _ _ h => analyze_failedImage h,
   fun _ _ _ _ _ _ _ himg ht htxt => analyze_degraded himg ht htxt⟩

/-- C1, witness: both failure policies at concrete inputs. -/
theorem modality_failure_policy_wit :
    analyze (.ok [1]) .exn none .exn =
      .ok (.failedImage "Azure Content Safety request failed" zeroCats) ∧
    analyze (.ok [1]) (.resp 200 (some imgHate0)) (some "hello")
        (.resp 200 (some runJob)) =
      .ok (.ok (scoreToClassification 0) (pyRound2 (1 - 0)) (rhe (0 * 100))
        zeroCats none) :=
  ⟨modality_failure_policy.1 (.ok [1]) .exn .exn none
      "Azure Content Safety request failed" zeroCats eval_imgExn,
   modality_failure_policy.2 (.ok [1]) (.resp 200 (some imgHate0))
      (.resp 200 (some runJob)) "hello" 0 zeroCats
      "Invalid Azure AI Language response" eval_imgHate0 (by decide)
      eval_runJob⟩

/-- C2, counterexample.  At fused risk 0.3 the code classifies
`"sensitive"`, while the claimed thresholds (`risk < 0.4 → "safe"`) demand
`"safe"`: the source thresholds are 0.2 and 0.6, not 0.4 and 0.7. -/
theorem classification_thresholds_cex :
    scoreToClassification (3/10) = "sensitive" ∧
    (3 : ℚ)/10 < 2/5 ∧ "sensitive" ≠ "safe" := by
  refine ⟨?_, by norm_num, by decide⟩
  unfold scoreToClassification
  norm_num

/-- C2, amended.  For every fused risk `r` in `[0,1]` the tier is `"safe"`
when `r ≤ 0.2`, `"sensitive"` when `0.2 < r ≤ 0.6`, and `"unsafe"` when
`r > 0.6` (lines 365-370 of `ai_analysis.py`). -/
theorem classification_thresholds (r : ℚ) (h0 : 0 ≤ r) (h1 : r ≤ 1) :
    (scoreToClassification r = "unsafe" ↔ 3/5 < r) ∧
    (scoreToClassification r = "sensitive" ↔ 1/5 < r ∧ r ≤ 3/5) ∧
    (scoreToClassification r = "safe" ↔ r ≤ 1/5) := by
  unfold scoreToClassification
  split_ifs with ha hb
  · refine ⟨⟨fun h => absurd h (by decide), fun h => absurd h (by linarith)⟩,
      ⟨fun h => absurd h (by decide), fun h => absurd h.1 (by linarith)⟩,
      ⟨fun _ => ha, fun _ => rfl⟩⟩
  · push_neg at ha
    refine ⟨⟨fun h => absurd h (by decide), fun h => absurd h (by linarith)⟩,
      ⟨fun _ => ⟨ha, hb⟩, fun _ => rfl⟩,
      ⟨fun h => absurd h (by decide), fun h => absurd h (by linarith)⟩⟩
  · push_neg at ha hb
    refine ⟨⟨fun _ => hb, fun _ => rfl⟩,
      ⟨fun h => absurd h (by decide), fun h => absurd h.2 (by linarith)⟩,
      ⟨fun h => absurd h (by decide), fun h => absurd h (by linarith)⟩⟩

/-- C2, witness: the tier characterization at risk 0.5. -/
theorem classification_thresholds_wit :
    (0 : ℚ) ≤ 1/2 ∧ (1/2 : ℚ) ≤ 1 ∧
    ((scoreToClassification (1/2) = "unsafe" ↔ 3/5 < (1/2 : ℚ)) ∧
     (scoreToClassification (1/2) = "sensitive" ↔
       1/5 < (1/2 : ℚ) ∧ (1/2 : ℚ) ≤ 3/5) ∧
     (scoreToClassification (1/2) = "safe" ↔ (1/2 : ℚ) ≤ 1/5)) :=
  ⟨by norm_num, by norm_num,
   classification_thresholds (1/2) (by norm_num) (by norm_num)⟩

/-- C3, counterexample.  The text client performs exactly one HTTP request —
the POST to the jobs endpoint — and never polls: on a 200 job body whose
status is `"running"` (no document results yet), it returns the
invalid-response failure at once instead of polling up to 10 times at
1-second intervals for a `"succeeded"` status; no `PollTimeout` outcome
exists in the code. -/
theorem text_no_polling_cex :
    textHttpRequests "hello" = 1 ∧
    analyzeText "hello" (.resp 200 (some runJob)) =
      .failed "Invalid Azure AI Language response" ∧
    (1 : ℕ) ≠ 11 :=
  ⟨by decide, eval_runJob, by decide⟩

/-- C3, amended.  Every text analysis issues at most one HTTP request (no
poll loop exists); a successful result always carries a sentiment of the
fixed map with exactly its mapped risk (never a partial result); and a
failed text analysis leaves a succeeded image modality as the sole
contributor to the fused risk. -/
theorem text_single_request :
    ∀ (t : String) (h : HttpResult),
      textHttpRequests t ≤ 1 ∧
      (∀ (s : String) (r : ℚ), analyzeText t h = .ok s r →
        SENTIMENT_RISK_MAP s = some r) ∧
      (∀ (conv : Except String (List ℕ)) (ih : HttpResult) (c : ℚ)
          (m : CatMap) (e : String),
        analyzeImage conv ih = .ok (.ok c m) → t ≠ "" →
        analyzeText t h = .failed e →
        analyze conv ih (some t) h = .ok (.ok (scoreToClassification c)
          (pyRound2 (1 - c)) (rhe (c * 100)) m none)) := by
  intro t h
  refine ⟨?_, fun s r hh => analyzeText_ok hh,
    fun _ _ _ _ _ himg ht htxt => analyze_degraded himg ht htxt⟩
  unfold textHttpRequests
  split_ifs <;> omega

/-- C3, witness: all three conjuncts at concrete inputs. -/
theorem text_single_request_wit :
    SENTIMENT_RISK_MAP "negative" = some (3/5) ∧
    analyze (.ok [1]) (.resp 200 (some imgHate0)) (some "hello")
        (.resp 200 (some runJob)) =
      .ok (.ok (scoreToClassification 0) (pyRound2 (1 - 0)) (rhe (0 * 100))
        zeroCats none) ∧
    textHttpRequests "what a bad day" ≤ 1 :=
  ⟨(text_single_request "what a bad day" (.resp 200 (some negJob))).2.1
      "negative" (3/5) eval_negJob,
   (text_single_request "hello" (.resp 200 (some runJob))).2.2 (.ok [1])
      (.resp 200 (some imgHate0)) 0 zeroCats
      "Invalid Azure AI Language response" eval_imgHate0 (by decide)
      eval_runJob,
   (text_single_request "what a bad day" .exn).1⟩

/-- C4, counterexample.  With no image and a negative-sentiment text,
`analyze` does not return risk 0.6 / `"sensitive"`: `image_to_bytes(None)`
raises, `_analyze_image` converts that to a failure, and `analyze` returns
it early with classification `"analysis_failed"` — the text (which would
analyze to `"negative"`, risk 0.6) is never consulted. -/
theorem no_image_negative_text_cex :
    analyze (image_to_bytes ImageInput.none) .exn (some "what a bad day")
        (.resp 200 (some negJob)) =
      .ok (.failedImage "Image conversion failed: No image provided"
        zeroCats) ∧
    (AnalyzeResult.failedImage "Image conversion failed: No image provided"
      zeroCats).classification ≠ "sensitive" ∧
    analyzeText "what a bad day" (.resp 200 (some negJob)) =
      .ok "negative" (3/5) :=
  ⟨analyze_failedImage (eval_imgConvNone _), by decide, eval_negJob⟩

/-- C4, amended.  With no image, `analyze` always returns the
`analysis_failed` image-conversion failure, whatever the text; risk 0.6 and
classification `"sensitive"` arise for a negative-sentiment text only when
an image is supplied and successfully analyzes with image risk 0 (then the
reported integer risk field is 60). -/
theorem negative_text_with_image :
    (∀ (ih th : HttpResult) (t : Option String),
      analyze (image_to_bytes ImageInput.none) ih t th =
        .ok (.failedImage "Image conversion failed: No image provided"
          zeroCats)) ∧
    (∀ (conv : Except String (List ℕ)) (ih th : HttpResult) (t : String)
        (m : CatMap),
      analyzeImage conv ih = .ok (.ok 0 m) → t ≠ "" →
      analyzeText t th = .ok "negative" (3/5) →
      analyze conv ih (some t) th =
        .ok (.ok "sensitive" (2/5) 60 m (some ("negative", 3/5)))) := by
  constructor
  · intro ih th t
    exact analyze_failedImage (eval_imgConvNone ih)
  · intro conv ih th t m himg ht htxt
    have htp : textPart (some t) th = (some ("negative", 3/5), 3/5) := by
      simp only [textPart]
      rw [if_neg ht, htxt]
    unfold analyze
    rw [himg]
    simp only [htp]
    norm_num [scoreToClassification, pyRound2, rhe, Int.fract]

/-- C4, witness: both halves at concrete inputs. -/
theorem negative_text_with_image_wit :
    analyze (image_to_bytes ImageInput.none) .exn none .exn =
      .ok (.failedImage "Image conversion failed: No image provided"
        zeroCats) ∧
    analyze (.ok [1]) (.resp 200 (some imgHate0)) (some "what a bad day")
        (.resp 200 (some negJob)) =
      .ok (.ok "sensitive" (2/5) 60 zeroCats (some ("negative", 3/5))) :=
  ⟨negative_text_with_image.1 .exn .exn none,
   negative_text_with_image.2 (.ok [1]) (.resp 200 (some imgHate0))
      (.resp 200 (some negJob)) "what a bad day" zeroCats eval_imgHate0
      (by decide) eval_negJob⟩

/-- C5, counterexample.  A successful result carries an integer risk field
`int(round(final_risk * 100))` — not `round(final_risk * 100, 2)` and not a
`risk_percentage` key.  At image severity 1 the final risk is 0.167: the
result's risk field is 17, while the claimed two-decimal value is 16.7. -/
theorem risk_field_rounding_cex :
    analyze (.ok [1]) (.resp 200 (some imgViolence1)) none .exn =
      .ok (.ok "safe" (83/100) 17 ⟨167/1000, 0, 0, 0⟩ none) ∧
    pyRound2 ((167 : ℚ)/1000 * 100) = 167/10 ∧
    ((17 : ℤ) : ℚ) ≠ 167/10 := by
  refine ⟨?_, ?_, by norm_num⟩
  · unfold analyze
    rw [eval_imgViolence1]
    simp only [textPart]
    norm_num [scoreToClassification, pyRound2, rhe, Int.fract]
  · norm_num [pyRound2, rhe, Int.fract]

/-- C5, amended.  Every successful `analyze` result's risk field equals
`round(final_risk * 100)` as an integer, for a fused risk in `[0,1]`; the
field therefore lies in `[0, 100]`. -/
theorem risk_field_integer_percent :
    ∀ (conv : Except String (List ℕ)) (ih th : HttpResult)
      (t : Option String) (cls : String) (conf : ℚ) (riskv : ℤ)
      (m : CatMap) (ta : Option (String × ℚ)),
      analyze conv ih t th = .ok (.ok cls conf riskv m ta) →
      ∃ fr, 0 ≤ fr ∧ fr ≤ 1 ∧ riskv = rhe (fr * 100) ∧
        0 ≤ riskv ∧ riskv ≤ 100 := by
  intro conv ih th t cls conf riskv m ta h
  obtain ⟨fr, h0, h1, -, -, hr⟩ := analyze_ok h
  refine ⟨fr, h0, h1, hr, ?_, ?_⟩
  · rw [hr]
    exact rhe_nonneg (by linarith)
  · rw [hr]
    exact rhe_le_intCast (by push_cast; linarith)

/-- C5, witness: the risk field of a concrete zero-risk run. -/
theorem risk_field_integer_percent_wit :
    analyze (.ok [1]) (.resp 200 (some imgHate0)) none .exn =
      .ok (.ok "safe" 1 0 zeroCats none) ∧
    ∃ fr, 0 ≤ fr ∧ fr ≤ 1 ∧ (0 : ℤ) = rhe (fr * 100) ∧
      (0 : ℤ) ≤ 0 ∧ (0 : ℤ) ≤ 100 :=
  ⟨eval_analyzeHate0,
   risk_field_integer_percent (.ok [1]) (.resp 200 (some imgHate0)) .exn
     none "safe" 1 0 zeroCats none eval_analyzeHate0⟩

/-- C6, counterexample.  A response holding a valid Violence item and a
`Weapons` item with the non-numeric severity `"high"` parses successfully:
the `Weapons` item is skipped at the category lookup, before its severity
is ever validated, so the parse is not the claimed hard failure. -/
theorem unknown_category_bad_severity_cex :
    analyzeImageData imgMixed = .ok (.ok (1/2) ⟨1/2, 0, 0, 0⟩) ∧
    pyFloat (Json.str "high") = none ∧
    ImageResult.ok (1/2) ⟨(1 : ℚ)/2, 0, 0, 0⟩ ≠ invalidImage := by
  refine ⟨?_, by decide, by simp [invalidImage]⟩
  simp [imgMixed, analyzeImageData, parseItems, lookupJ, pyOr, pyTruthy,
    normKey, CATEGORY_MAP, pyFloat, pyFloatStr, MAX_SEVERITY, normSeverity,
    pyRound3, CatMap.set, CatMap.maxVal, zeroCats, rhe]
  norm_num [Int.fract, sup_eq_left]

/-- C6, amended.  An item whose category is recognized by `CATEGORY_MAP`
and whose severity is non-numeric or outside `[0, 6]` invalidates the
entire response — the failure value carries the all-zero map, so no partial
category map survives; items skipped earlier (non-dict, non-string or
unrecognized category) never reach the severity check. -/
theorem recognized_bad_severity_rejects :
    ∀ (items : List Json) (m : CatMap) (v : Bool) (j : Json),
      j ∈ items → badSeverityItem j → parseItems items m v = invalidImage :=
  fun _ _ _ _ hj hb => parseItems_bad hj hb

/-- C6, witness: a recognized Violence item with severity `"high"` rejects
the whole parse. -/
theorem recognized_bad_severity_rejects_wit :
    Json.obj [("category", .str "Violence"), ("severity", .str "high")] ∈
      [Json.obj [("category", .str "Violence"), ("severity", .str "high")]] ∧
    badSeverityItem (Json.obj [("category", .str "Violence"),
      ("severity", .str "high")]) ∧
    parseItems [Json.obj [("category", .str "Violence"),
      ("severity", .str "high")]] zeroCats false = invalidImage := by
  have hnone : pyFloat (lookupJ [("category", Json.str "Violence"),
      ("severity", Json.str "high")] "severity") = none := by decide
  have hbad : badSeverityItem (Json.obj [("category", .str "Violence"),
      ("severity", .str "high")]) := by
    refine ⟨_, "Violence", "violence", rfl, rfl, by decide, ?_⟩
    intro sev h
    rw [hnone] at h
    cases h
  exact ⟨List.mem_singleton.mpr rfl, hbad,
    recognized_bad_severity_rejects _ zeroCats false _
      (List.mem_singleton.mpr rfl) hbad⟩

/-- C7.  A response in which no item is recognizable (so zero categories
can be parsed into the map) is a hard failure: the loop ends with
`valid_found` false and the uniform invalid-response failure is returned;
through `analyze` such a response yields the `analysis_failed` early
return, never a risk-0 `"safe"` verdict. -/
theorem zero_parsed_rejects :
    ∀ (items : List Json) (m : CatMap),
      (∀ j ∈ items, ¬ recognizedItem j) →
      parseItems items m false = invalidImage ∧
      ∀ (p : List ℕ) (t : Option String) (th : HttpResult),
        analyze (.ok p) (.resp 200 (some (.obj [("categoriesAnalysis",
            .arr items)]))) t th =
          .ok (.failedImage "Invalid Azure Content Safety response"
            zeroCats) := by
  intro items m hn
  have hparse : ∀ m' : CatMap, parseItems items m' false = invalidImage :=
    fun _ => parseItems_none_recognized hn
  refine ⟨hparse m, ?_⟩
  intro p t th
  apply analyze_failedImage
  have hdata : analyzeImageData (.obj [("categoriesAnalysis", .arr items)]) =
      .ok invalidImage := by
    unfold analyzeImageData
    rcases items with _ | ⟨j, js⟩
    · simp [lookupJ, pyOr, pyTruthy]
    · simp [lookupJ, pyOr, pyTruthy, hparse]
  show analyzeImage _ _ = _
  unfold analyzeImage
  simpa [invalidImage] using hdata

/-- C7, witness: a response whose single item is the bare string `"x"`. -/
theorem zero_parsed_rejects_wit :
    parseItems [Json.str "x"] zeroCats false = invalidImage ∧
    analyze (.ok [1]) (.resp 200 (some (.obj [("categoriesAnalysis",
        .arr [Json.str "x"])]))) none .exn =
      .ok (.failedImage "Invalid Azure Content Safety response" zeroCats) := by
  have hno : ∀ j ∈ [Json.str "x"], ¬ recognizedItem j := by
    intro j hj
    simp only [List.mem_singleton] at hj
    subst hj
    rintro ⟨fields, cat, mapped, heq, -, -⟩
    exact Json.noConfusion heq
  have h := zero_parsed_rejects [Json.str "x"] zeroCats hno
  exact ⟨h.1, h.2 [1] none .exn⟩

/-- C8.  For every severity `s` in the declared range `[0, 6]`, the
normalization is `round(s / 6, 3)` and the resulting risk lies in `[0,1]`;
a single-item response with severity `s` parses to exactly that value. -/
theorem severity_normalization :
    ∀ s : ℚ, 0 ≤ s → s ≤ MAX_SEVERITY →
      normSeverity s = pyRound3 (s / 6) ∧
      0 ≤ normSeverity s ∧ normSeverity s ≤ 1 ∧
      analyzeImageData (.obj [("categoriesAnalysis",
          .arr [.obj [("category", .str "Violence"),
            ("severity", .num s)]])]) =
        .ok (.ok (normSeverity s) ⟨normSeverity s, 0, 0, 0⟩) := by
  intro s h0 h6
  obtain ⟨hn0, hn1⟩ := normSeverity_bounds h0 h6
  refine ⟨rfl, hn0, hn1, ?_⟩
  have hpi : parseItems [.obj [("category", .str "Violence"),
      ("severity", .num s)]] zeroCats false =
      .ok (normSeverity s) ⟨normSeverity s, 0, 0, 0⟩ := by
    unfold parseItems
    simp only [lookupJ, List.find?]
    simp [normKey, CATEGORY_MAP, pyFloat]
    rw [if_pos ⟨h0, h6⟩]
    unfold parseItems
    simp [CatMap.set, zeroCats, CatMap.maxVal, max_eq_left hn0]
  unfold analyzeImageData
  simp [lookupJ, pyOr, pyTruthy, hpi]

/-- C8, witness: severity 3 normalizes to 0.5. -/
theorem severity_normalization_wit :
    (0 : ℚ) ≤ 3 ∧ (3 : ℚ) ≤ MAX_SEVERITY ∧
    (normSeverity 3 = pyRound3 (3 / 6) ∧
     0 ≤ normSeverity 3 ∧ normSeverity 3 ≤ 1 ∧
     analyzeImageData (.obj [("categoriesAnalysis",
         .arr [.obj [("category", .str "Violence"),
           ("severity", .num 3)]])]) =
       .ok (.ok (normSeverity 3) ⟨normSeverity 3, 0, 0, 0⟩)) :=
  ⟨by norm_num, by norm_num [MAX_SEVERITY],
   severity_normalization 3 (by norm_num) (by norm_num [MAX_SEVERITY])⟩

/-- C9.  Every successful image analysis reports as its score (stored in
the `confidence` field of the ok dict and used as the image risk by
`analyze`) the maximum of the four canonical per-category risks of the
parsed map. -/
theorem image_risk_is_max_category :
    ∀ (conv : Except String (List ℕ)) (http : HttpResult) (c : ℚ)
      (m : CatMap),
      analyzeImage conv http = .ok (.ok c m) →
      c = max (max (max m.violence m.sexual) m.self_harm) m.hate :=
  fun _ _ _ _ h => (analyzeImage_ok h).2

/-- C9, witness: the severity-1 Violence response. -/
theorem image_risk_is_max_category_wit :
    analyzeImage (.ok [1]) (.resp 200 (some imgViolence1)) =
      .ok (.ok (167/1000) ⟨167/1000, 0, 0, 0⟩) ∧
    (167 : ℚ)/1000 = max (max (max ((167 : ℚ)/1000) 0) 0) 0 :=
  ⟨eval_imgViolence1,
   image_risk_is_max_category (.ok [1]) (.resp 200 (some imgViolence1))
     (167/1000) ⟨167/1000, 0, 0, 0⟩ eval_imgViolence1⟩

/-- C10.  Every successful `analyze` result's confidence field equals
`round(1.0 - final_risk, 2)` for a fused risk in `[0,1]`, hence lies in
`[0,1]`; and the formula is weakly decreasing in the fused risk. -/
theorem confidence_formula :
    (∀ (conv : Except String (List ℕ)) (ih th : HttpResult)
        (t : Option String) (cls : String) (conf : ℚ) (riskv : ℤ)
        (m : CatMap) (ta : Option (String × ℚ)),
      analyze conv ih t th = .ok (.ok cls conf riskv m ta) →
      ∃ fr, 0 ≤ fr ∧ fr ≤ 1 ∧ conf = pyRound2 (1 - fr) ∧
        0 ≤ conf ∧ conf ≤ 1) ∧
    (∀ a b : ℚ, a ≤ b → pyRound2 (1 - b) ≤ pyRound2 (1 - a)) := by
  constructor
  · intro conv ih th t cls conf riskv m ta h
    obtain ⟨fr, h0, h1, -, hconf, -⟩ := analyze_ok h
    obtain ⟨hb0, hb1⟩ := pyRound2_bounds (q := 1 - fr) (by linarith)
      (by linarith)
    exact ⟨fr, h0, h1, hconf, hconf ▸ hb0, hconf ▸ hb1⟩
  · intro a b hab
    exact pyRound2_mono (by linarith)

/-- C10, witness: the confidence of a concrete zero-risk run, and
antitonicity between risks 0 and 0.5. -/
theorem confidence_formula_wit :
    analyze (.ok [1]) (.resp 200 (some imgHate0)) none .exn =
      .ok (.ok "safe" 1 0 zeroCats none) ∧
    (∃ fr, 0 ≤ fr ∧ fr ≤ 1 ∧ (1 : ℚ) = pyRound2 (1 - fr) ∧
      0 ≤ (1 : ℚ) ∧ (1 : ℚ) ≤ 1) ∧
    pyRound2 (1 - 1/2) ≤ pyRound2 (1 - 0) :=
  ⟨eval_analyzeHate0,
   confidence_formula.1 (.ok [1]) (.resp 200 (some imgHate0)) .exn none
     "safe" 1 0 zeroCats none eval_analyzeHate0,
   confidence_formula.2 0 (1/2) (by norm_num)⟩

end MediaGuard
